import Mathlib

/-!
Verification of the QwenChat client (`src/QwenChat/src/client.py`).

The development shallowly embeds the parts of `QwenClient` that the spec
talks about:

* the streaming-response decoder of `QwenClient.chat` (lines 176-241) and
  `QwenClient.send_message` (lines 332-364), modelled at the level of
  already-split response lines;
* the conversation lifecycle: `_create_conversation` (lines 49-88) and
  `new_conversation` (lines 247-251);
* credential loading: `_load_cookies` (lines 20-25) and
  `_get_token_from_cookies` (lines 27-35);
* request construction: `_get_headers` (lines 37-47) and the JSON payloads
  built by `_create_conversation`, `chat` and `send_message`.
-/

namespace QwenChat

/-- One `delta` object of a `choices` entry, as read by the decoders:
`content = delta.get("content", "")`, `phase = delta.get("phase", "answer")`
(`none` models an absent `phase` key), `status = delta.get("status", "")`. -/
structure Delta where
  content : String := ""
  phase : Option String := none
  status : String := ""
  deriving DecidableEq

/-- A parsed `data:` JSON record, restricted to the keys the decoders read.
`respCreated = some info` models the presence of the `"response.created"` key,
with `info = some rid` when `info` carries a `"response_id"`.  `choices`
models the `"choices"` key: a list of choices, each reduced to its
`choice.get("delta", \x7b\x7d)` object (a missing `delta` key yields the
default `Delta`). -/
structure Record where
  respCreated : Option (Option String) := none
  choices : Option (List Delta) := none
  deriving DecidableEq

/-- The payload of a `data:` line after `line[5:].strip()`:
the empty string, the literal sentinel `[DONE]`, a string on which
`json.loads` raises `JSONDecodeError`, or a parsed record. -/
inductive Payload where
  | empty
  | done
  | malformed
  | record (r : Record)
  deriving DecidableEq

/-- One line of the streamed response body: a falsy (empty) line, a line that
does not start with `data:`, or a `data:` line with its stripped payload. -/
inductive Line where
  | blank
  | other (s : String)
  | data (p : Payload)
  deriving DecidableEq

/-- The local state of `QwenClient.chat`'s decoding loop: the accumulators
`thinking_content` and `answer_content`, the `current_phase` variable
(`None` initially), the client's `self.parent_id`, and the list of strings
passed to `stream_thinking` so far (the observable reasoning flushes). -/
structure ChatState where
  thinking : String := ""
  answer : String := ""
  currentPhase : Option String := none
  parentId : Option String := none
  flushes : List String := []
  deriving DecidableEq

/-- The phase-transition block of `chat` (client.py lines 204-214): when the
previous phase was `"think"` and `thinking_content` is non-empty, the whole
`thinking_content` accumulator is passed to `stream_thinking`. -/
def chatFlush (st : ChatState) : ChatState :=
  if st.currentPhase = some "think" ∧ st.thinking ≠ "" then
    { st with flushes := st.flushes ++ [st.thinking] }
  else st

/-- The `if phase != current_phase` block of `chat` (client.py lines
204-222): flush, then record the new phase. -/
def chatTransition (st : ChatState) (phase : String) : ChatState :=
  if some phase ≠ st.currentPhase then
    { chatFlush st with currentPhase := some phase }
  else st

/-- The `if content` accumulation block of `chat` (client.py lines
224-229): non-empty content goes to `thinking_content` when the phase is
`"think"`, otherwise to `answer_content`. -/
def chatAccumulate (st : ChatState) (phase content : String) : ChatState :=
  if content ≠ "" then
    if phase = "think" then { st with thinking := st.thinking ++ content }
    else { st with answer := st.answer ++ content }
  else st

/-- Processing of one choice's delta inside `chat` (client.py lines 198-229),
up to but excluding the `status == "finished"` break test: phase-transition
handling, then content accumulation. -/
def chatApplyDelta (st : ChatState) (d : Delta) : ChatState :=
  chatAccumulate (chatTransition st (d.phase.getD "answer"))
    (d.phase.getD "answer") d.content

/-- The `for choice in data["choices"]` loop of `chat`, including the
`break` taken when a delta has `status == "finished"` and phase `"answer"`
(client.py lines 231-232): remaining choices of the same record are skipped. -/
def chatProcessChoices (st : ChatState) : List Delta → ChatState
  | [] => st
  | d :: rest =>
    let st2 := chatApplyDelta st d
    if d.status = "finished" ∧ d.phase.getD "answer" = "answer" then st2
    else chatProcessChoices st2 rest

/-- Processing of one response line by `chat` (client.py lines 176-235):
blank lines, non-`data:` lines, empty payloads, the `[DONE]` sentinel and
unparseable JSON are all skipped; a `response.created` record updates
`self.parent_id` and skips any `choices`; otherwise the choices are decoded. -/
def chatProcessLine (st : ChatState) : Line → ChatState
  | .data (.record r) =>
    match r.respCreated with
    | some info =>
      match info with
      | some rid => { st with parentId := some rid }
      | none => st
    | none =>
      match r.choices with
      | some cs => chatProcessChoices st cs
      | none => st
  | _ => st

/-- The whole decoding loop of `chat` over the response lines, started from
empty accumulators, `current_phase = None` and a given `self.parent_id`. -/
def chatDecodeFrom (st : ChatState) (lines : List Line) : ChatState :=
  lines.foldl chatProcessLine st

/-- `chat`'s decoder run from the initial state (fresh accumulators,
`parent_id = None`); `.answer` of the result is the returned string. -/
def chatDecode (lines : List Line) : ChatState :=
  chatDecodeFrom {} lines

/-- The state of `QwenClient.send_message`'s decoding loop: the
`answer_content` accumulator and `self.parent_id`. -/
structure SendState where
  answer : String := ""
  parentId : Option String := none
  deriving DecidableEq

/-- Processing of one choice's delta inside `send_message` (client.py lines
353-359): content is appended only when non-empty and the phase (defaulted to
`"answer"`) equals exactly `"answer"`. -/
def sendApplyDelta (a : String) (d : Delta) : String :=
  if d.content ≠ "" ∧ d.phase.getD "answer" = "answer" then a ++ d.content
  else a

/-- The `for choice in data["choices"]` loop of `send_message`; it has no
`break`. -/
def sendProcessChoices (a : String) (cs : List Delta) : String :=
  cs.foldl sendApplyDelta a

/-- Processing of one response line by `send_message` (client.py lines
334-362); the line dispatch is identical to `chat`'s. -/
def sendProcessLine (st : SendState) : Line → SendState
  | .data (.record r) =>
    match r.respCreated with
    | some info =>
      match info with
      | some rid => { st with parentId := some rid }
      | none => st
    | none =>
      match r.choices with
      | some cs => { st with answer := sendProcessChoices st.answer cs }
      | none => st
  | _ => st

/-- The whole decoding loop of `send_message` over the response lines. -/
def sendDecodeFrom (st : SendState) (lines : List Line) : SendState :=
  lines.foldl sendProcessLine st

/-- `send_message`'s decoder run from the initial state; `.answer` of the
result is the returned string. -/
def sendDecode (lines : List Line) : SendState :=
  sendDecodeFrom {} lines

/-! ### The spec's answer function

Modelled from the spec: "the decoder's returned answer equals the
concatenation, in arrival order, of every `content` field where the
effective phase is `answer`", with `phase` defaulting to `answer` when
absent, and `response.created` records carrying "no displayable content". -/

/-- The contribution of one delta to the spec's answer: its `content` when
its effective phase (the `phase` field, defaulting to `answer`) is `answer`,
nothing otherwise. -/
def deltaAnswerText (d : Delta) : String :=
  if d.phase.getD "answer" = "answer" then d.content else ""

/-- The contribution of one parsed record to the spec's answer: the
concatenation over its choices, and nothing for a `response.created`
record (the spec: such a record "carries no displayable content"). -/
def recordAnswerText (r : Record) : String :=
  match r.respCreated with
  | some _ => ""
  | none =>
    match r.choices with
    | some cs => (cs.map deltaAnswerText).foldr (· ++ ·) ""
    | none => ""

/-- The contribution of one response line to the spec's answer. -/
def lineAnswerText : Line → String
  | .data (.record r) => recordAnswerText r
  | _ => ""

/-- The spec's answer for a stream: the concatenation, in arrival order, of
every content field whose effective phase is `answer`. -/
def answerSpec (lines : List Line) : String :=
  (lines.map lineAnswerText).foldr (· ++ ·) ""

/-! ### Well-formedness of an event stream -/

/-- A delta's phase field is well formed when it is absent or one of the two
phases of the wire protocol, `"think"` (reasoning) and `"answer"`. -/
def phaseOk (d : Delta) : Prop :=
  d.phase = none ∨ d.phase = some "think" ∨ d.phase = some "answer"

instance (d : Delta) : Decidable (phaseOk d) := by
  unfold phaseOk; infer_instance

/-- A delta that reports completion of the answer phase. -/
def finishedAnswer (d : Delta) : Bool :=
  d.status = "finished" ∧ d.phase.getD "answer" = "answer"

/-- In a well-formed record, a delta reporting completion of the answer
phase can only be the last delta of its record. -/
def noEarlyFinish : List Delta → Prop
  | [] => True
  | [_] => True
  | d :: rest => finishedAnswer d = false ∧ noEarlyFinish rest

/-- A record is well formed when, unless it is a `response.created` record,
all its deltas have well-formed phases and only its last delta may report
completion of the answer phase (a record with no `choices` key is treated
as having the empty list of deltas). -/
def recordOk (r : Record) : Prop :=
  r.respCreated = none →
    (∀ d ∈ r.choices.getD [], phaseOk d) ∧ noEarlyFinish (r.choices.getD [])

/-- A line is well formed when its record (if any) is. -/
def lineOk : Line → Prop
  | .data (.record r) => recordOk r
  | _ => True

/-- A well-formed event stream: every line is well formed and the stream is
terminated by the `[DONE]` sentinel. -/
def wellFormed (lines : List Line) : Prop :=
  (∀ l ∈ lines, lineOk l) ∧ ∃ pre, lines = pre ++ [Line.data Payload.done]

/-- A `data:` line holding a single-choice record whose delta carries
content `s` in phase `"think"`. -/
def mkThinkLine (s : String) : Line :=
  Line.data (Payload.record { choices := some [{ content := s, phase := some "think" }] })

/-- A `data:` line holding a single-choice record whose delta carries
content `s` in phase `"answer"`. -/
def mkAnswerLine (s : String) : Line :=
  Line.data (Payload.record { choices := some [{ content := s, phase := some "answer" }] })

/-! ### Client state, conversation lifecycle, credentials and requests -/

/-- Modelled from the spec: the repository's `config.py` (the `Config` class
imported by `client.py`) is not among the provided sources.  The spec says
headers are derived from a configured base URL plus a fixed user agent, so
only the two constants `client.py` reads for request construction are
modelled (`BASE_URL` and `BASE_HEADERS["User-Agent"]`). -/
structure Config where
  BASE_URL : String
  userAgent : String
  deriving DecidableEq

/-- The mutable fields of a `QwenClient` instance set by `__init__`
(client.py lines 10-18) and read by request construction. -/
structure ClientState where
  config : Config
  cookies : List (String × String)
  token : Option String
  conversationId : Option String
  parentId : Option String
  thinkingEnabled : Bool
  thinkingBudget : Nat
  deriving DecidableEq

/-- The relevant shape of the transport's response to the
conversation-creation POST: the HTTP status, and the parsed body's
`success` flag and `data.id` field (`none` when missing). -/
structure CreateResp where
  status : Nat
  success : Bool
  dataId : Option String
  deriving DecidableEq

/-- The outcome of one `_create_conversation` call: the returned value
(`None` on failure), the client state afterwards, and whether an HTTP
creation call was issued. -/
structure CreateResult where
  result : Option String
  state : ClientState
  calledTransport : Bool
  deriving DecidableEq

/-- `QwenClient._create_conversation` (client.py lines 49-88): if
`self.conversation_id` is set, return it without any HTTP call; otherwise
POST and, on a 200 response whose body has a truthy `success` and a truthy
`data.id`, record and return the id; on any other response return `None`
leaving the state unchanged. -/
def create_conversation (st : ClientState) (resp : CreateResp) : CreateResult :=
  match st.conversationId with
  | some cid => { result := some cid, state := st, calledTransport := false }
  | none =>
    if resp.status = 200 ∧ resp.success = true ∧ resp.dataId.getD "" ≠ "" then
      { result := resp.dataId
        state := { st with conversationId := resp.dataId }
        calledTransport := true }
    else
      { result := none, state := st, calledTransport := true }

/-- `QwenClient.new_conversation` (client.py lines 247-251): unconditionally
clear `self.conversation_id` and `self.parent_id`. -/
def new_conversation (st : ClientState) : ClientState :=
  { st with conversationId := none, parentId := none }

/-- The observable content of the cookie file: absent (`FileNotFoundError`
on `open`), present but not valid JSON (`json.load` raises), or a parsed
cookie mapping. -/
inductive CookieFile where
  | missing
  | corrupt
  | ok (cookies : List (String × String))
  deriving DecidableEq

/-- `QwenClient._load_cookies` (client.py lines 20-25): `json.load` the
cookie file; only `FileNotFoundError` is caught (yielding `\x7b\x7d`), so a
present-but-corrupt file propagates `JSONDecodeError`. -/
def load_cookies : CookieFile → Except String (List (String × String))
  | .missing => .ok []
  | .corrupt => .error "JSONDecodeError"
  | .ok cookies => .ok cookies

/-- `QwenClient._get_token_from_cookies` (client.py lines 27-35): the
`token` cookie if present, else the stripped token file content, else
`None` when the token file is absent (`FileNotFoundError` caught). -/
def get_token_from_cookies (cookies : List (String × String))
    (tokenFile : Option String) : Option String :=
  match cookies.lookup "token" with
  | some v => some v
  | none => tokenFile.map String.trim

/-- `QwenClient.__init__` (client.py lines 10-18): load the cookies, derive
the token, and start with no conversation, no parent pointer, thinking
disabled and the default thinking budget.  An uncaught exception while
loading the cookies aborts construction. -/
def clientInit (cfg : Config) (cookieFile : CookieFile)
    (tokenFile : Option String) : Except String ClientState :=
  match load_cookies cookieFile with
  | .error e => .error e
  | .ok cookies =>
    .ok { config := cfg
          cookies := cookies
          token := get_token_from_cookies cookies tokenFile
          conversationId := none
          parentId := none
          thinkingEnabled := false
          thinkingBudget := 81920 }

/-- `QwenClient._get_headers` (client.py lines 37-47); `requestId` stands
for the fresh `str(uuid.uuid4())` generated per call. -/
def get_headers (st : ClientState) (requestId : String) : List (String × String) :=
  [("Accept", "application/json"),
   ("Content-Type", "application/json"),
   ("Origin", st.config.BASE_URL),
   ("Referer", st.config.BASE_URL ++ "/"),
   ("User-Agent", st.config.userAgent),
   ("X-Request-Id", requestId),
   ("X-Accel-Buffering", "no"),
   ("source", "web")]

/-- The `feature_config` object built by `chat` and `send_message`
(client.py lines 117-124, 283-290): `thinking_budget` is present only when
thinking is enabled. -/
structure FeatureConfig where
  thinking_enabled : Bool
  output_schema : String
  research_mode : String
  thinking_budget : Option Nat
  deriving DecidableEq

def mkFeatureConfig (st : ClientState) : FeatureConfig :=
  { thinking_enabled := st.thinkingEnabled
    output_schema := "phase"
    research_mode := "normal"
    thinking_budget := if st.thinkingEnabled then some st.thinkingBudget else none }

/-- The single message object of a chat payload (client.py lines 134-151);
string-valued constants are kept verbatim. -/
structure Message where
  fid : String
  parentId : Option String
  childrenIds : List String
  role : String
  content : String
  user_action : String
  files : List String
  timestamp : Nat
  models : List String
  chat_type : String
  feature_config : FeatureConfig
  subChatTypeMeta : String
  sub_chat_type : String
  parent_id : Option String
  deriving DecidableEq

/-- The JSON payload of a chat-turn POST (client.py lines 126-153 and
292-319; the two functions build it identically). -/
structure ChatPayload where
  stream : Bool
  version : String
  incremental_output : Bool
  chat_id : Option String
  chat_mode : String
  model : String
  parent_id : Option String
  messages : List Message
  timestamp : Nat
  deriving DecidableEq

/-- The JSON payload of the conversation-creation POST (client.py lines
56-63). -/
structure CreatePayload where
  title : String
  models : List String
  chat_mode : String
  chat_type : String
  timestamp : Nat
  project_id : String
  deriving DecidableEq

/-- An outgoing HTTP POST as issued by `httpx`: URL, headers, cookies and
JSON payload. -/
structure HttpRequest (P : Type) where
  url : String
  headers : List (String × String)
  cookies : List (String × String)
  payload : P
  deriving DecidableEq

/-- Python's rendering of an optional string inside an f-string
(`None` prints as `"None"`). -/
def pyOptStr : Option String → String
  | some s => s
  | none => "None"

/-- The conversation-creation request issued by `_create_conversation`
(client.py lines 56-71); `ts` stands for `int(time.time() * 1000)` and
`requestId` for the fresh uuid used by `_get_headers`. -/
def createRequest (st : ClientState) (requestId : String) (ts : Nat) :
    HttpRequest CreatePayload :=
  { url := st.config.BASE_URL ++ "/api/v2/chats/new"
    headers := get_headers st requestId
    cookies := st.cookies
    payload :=
      { title := "New Chat"
        models := ["qwen3-max-2025-10-30"]
        chat_mode := "normal"
        chat_type := "t2t"
        timestamp := ts
        project_id := "" } }

/-- The chat-turn payload common to `chat` and `send_message` (client.py
lines 126-153, 292-319); `fid` and `childId` stand for the two fresh uuids
and `ts` for `int(time.time())`. -/
def chatPayloadOf (st : ClientState) (content fid childId : String) (ts : Nat) :
    ChatPayload :=
  { stream := true
    version := "2.1"
    incremental_output := true
    chat_id := st.conversationId
    chat_mode := "normal"
    model := "qwen3-max-2025-10-30"
    parent_id := st.parentId
    messages :=
      [{ fid := fid
         parentId := st.parentId
         childrenIds := [childId]
         role := "user"
         content := content
         user_action := "chat"
         files := []
         timestamp := ts
         models := ["qwen3-max-2025-10-30"]
         chat_type := "t2t"
         feature_config := mkFeatureConfig st
         subChatTypeMeta := "t2t"
         sub_chat_type := "t2t"
         parent_id := st.parentId }]
    timestamp := ts }

/-- The chat-turn request issued by `chat` (client.py lines 155-162). -/
def chatRequest (st : ClientState) (prompt fid childId requestId : String)
    (ts : Nat) : HttpRequest ChatPayload :=
  { url := st.config.BASE_URL ++ "/api/v2/chat/completions?chat_id="
             ++ pyOptStr st.conversationId
    headers := get_headers st requestId
    cookies := st.cookies
    payload := chatPayloadOf st prompt fid childId ts }

/-- `send_message`'s combined prompt (client.py lines 278-281): a truthy
system prompt is prepended inside a labeled block. -/
def fullPrompt (prompt : String) (systemPrompt : Option String) : String :=
  match systemPrompt with
  | some sp =>
    if sp ≠ "" then
      "[System Instructions: " ++ sp ++ "]\n\nUser Request: " ++ prompt
    else prompt
  | none => prompt

/-- The chat-turn request issued by `send_message` (client.py lines
321-328). -/
def sendRequest (st : ClientState) (prompt : String)
    (systemPrompt : Option String) (fid childId requestId : String)
    (ts : Nat) : HttpRequest ChatPayload :=
  { url := st.config.BASE_URL ++ "/api/v2/chat/completions?chat_id="
             ++ pyOptStr st.conversationId
    headers := get_headers st requestId
    cookies := st.cookies
    payload := chatPayloadOf st (fullPrompt prompt systemPrompt) fid childId ts }

instance noEarlyFinishDec : (cs : List Delta) → Decidable (noEarlyFinish cs)
  | [] => .isTrue trivial
  | [_] => .isTrue trivial
  | _ :: e :: es =>
    have : Decidable (noEarlyFinish (e :: es)) := noEarlyFinishDec (e :: es)
    by unfold noEarlyFinish; infer_instance

instance recordOkDec (r : Record) : Decidable (recordOk r) :=
  inferInstanceAs (Decidable (r.respCreated = none →
    (∀ d ∈ r.choices.getD [], phaseOk d) ∧ noEarlyFinish (r.choices.getD [])))

instance lineOkDec : (l : Line) → Decidable (lineOk l)
  | .blank => .isTrue trivial
  | .other _ => .isTrue trivial
  | .data .empty => .isTrue trivial
  | .data .done => .isTrue trivial
  | .data .malformed => .isTrue trivial
  | .data (.record r) => inferInstanceAs (Decidable (recordOk r))

end QwenChat

namespace QwenChat

/-! ### Helper lemmas -/

theorem append_ne_empty_left (s t : String) (h : s ≠ "") : s ++ t ≠ "" := by
  intro hc
  apply h
  have hd := congrArg String.data hc
  simp at hd
  exact String.ext hd.1

theorem chatFlush_answer (st : ChatState) : (chatFlush st).answer = st.answer := by
  unfold chatFlush; split <;> rfl

theorem chatTransition_answer (st : ChatState) (p : String) :
    (chatTransition st p).answer = st.answer := by
  unfold chatTransition
  split
  · exact chatFlush_answer st
  · rfl

theorem chatAccumulate_answer (st : ChatState) (p c : String) :
    (chatAccumulate st p c).answer =
      if p = "think" then st.answer else st.answer ++ c := by
  unfold chatAccumulate
  by_cases hc : c = ""
  · subst hc
    simp
  · by_cases hp : p = "think" <;> simp [hc, hp]

theorem chatApplyDelta_answer (st : ChatState) (d : Delta) :
    (chatApplyDelta st d).answer =
      if d.phase.getD "answer" = "think" then st.answer
      else st.answer ++ d.content := by
  unfold chatApplyDelta
  rw [chatAccumulate_answer, chatTransition_answer]

theorem chatApplyDelta_answer_ok (st : ChatState) (d : Delta) (h : phaseOk d) :
    (chatApplyDelta st d).answer = st.answer ++ deltaAnswerText d := by
  rw [chatApplyDelta_answer]
  rcases h with h | h | h <;> simp [deltaAnswerText, h]

theorem noEarlyFinish_tail {d : Delta} {rest : List Delta}
    (h : noEarlyFinish (d :: rest)) : noEarlyFinish rest := by
  cases rest with
  | nil => trivial
  | cons e es => exact h.2

theorem chatProcessChoices_answer (cs : List Delta) : ∀ st : ChatState,
    (∀ d ∈ cs, phaseOk d) → noEarlyFinish cs →
    (chatProcessChoices st cs).answer =
      st.answer ++ (cs.map deltaAnswerText).foldr (· ++ ·) "" := by
  induction cs with
  | nil => intro st _ _; simp [chatProcessChoices]
  | cons d rest ih =>
    intro st hph hf
    simp only [chatProcessChoices]
    by_cases hb : d.status = "finished" ∧ d.phase.getD "answer" = "answer"
    · rw [if_pos hb]
      cases rest with
      | nil =>
        rw [chatApplyDelta_answer_ok st d (hph d (by simp))]
        simp
      | cons e es =>
        exfalso
        have hfa : finishedAnswer d = false := hf.1
        simp [finishedAnswer, hb.1, hb.2] at hfa
    · rw [if_neg hb]
      rw [ih _ (fun x hx => hph x (List.mem_cons_of_mem _ hx)) (noEarlyFinish_tail hf)]
      rw [chatApplyDelta_answer_ok st d (hph d (List.mem_cons_self _ _))]
      simp [String.append_assoc]

theorem chatProcessLine_answer (st : ChatState) (l : Line) (h : lineOk l) :
    (chatProcessLine st l).answer = st.answer ++ lineAnswerText l := by
  cases l with
  | blank => simp [chatProcessLine, lineAnswerText]
  | other s => simp [chatProcessLine, lineAnswerText]
  | data p =>
    cases p with
    | empty => simp [chatProcessLine, lineAnswerText]
    | done => simp [chatProcessLine, lineAnswerText]
    | malformed => simp [chatProcessLine, lineAnswerText]
    | record r =>
      simp only [chatProcessLine, lineAnswerText]
      cases hrc : r.respCreated with
      | some info =>
        cases info <;> simp [recordAnswerText, hrc]
      | none =>
        have hok := h hrc
        cases hch : r.choices with
        | none => simp [recordAnswerText, hrc, hch]
        | some cs =>
          rw [hch] at hok
          simp only [Option.getD_some] at hok
          simp only [recordAnswerText, hrc, hch]
          exact chatProcessChoices_answer cs st hok.1 hok.2

theorem chatDecodeFrom_answer (lines : List Line) : ∀ st : ChatState,
    (∀ l ∈ lines, lineOk l) →
    (chatDecodeFrom st lines).answer = st.answer ++ answerSpec lines := by
  induction lines with
  | nil => intro st _; simp [chatDecodeFrom, answerSpec]
  | cons l ls ih =>
    intro st hok
    have h1 : (chatDecodeFrom st (l :: ls)) =
        chatDecodeFrom (chatProcessLine st l) ls := rfl
    rw [h1, ih _ (fun x hx => hok x (List.mem_cons_of_mem _ hx)),
      chatProcessLine_answer st l (hok l (List.mem_cons_self _ _))]
    show _ = st.answer ++ (lineAnswerText l ++ answerSpec ls)
    simp [String.append_assoc]

theorem sendApplyDelta_eq (a : String) (d : Delta) :
    sendApplyDelta a d = a ++ deltaAnswerText d := by
  unfold sendApplyDelta deltaAnswerText
  by_cases hc : d.content = ""
  · simp [hc]
  · by_cases hp : d.phase.getD "answer" = "answer" <;> simp [hc, hp]

theorem sendProcessChoices_eq (cs : List Delta) : ∀ a : String,
    sendProcessChoices a cs = a ++ (cs.map deltaAnswerText).foldr (· ++ ·) "" := by
  induction cs with
  | nil => intro a; simp [sendProcessChoices]
  | cons d rest ih =>
    intro a
    have h1 : sendProcessChoices a (d :: rest) =
        sendProcessChoices (sendApplyDelta a d) rest := rfl
    rw [h1, ih, sendApplyDelta_eq]
    simp [String.append_assoc]

theorem sendProcessLine_answer (st : SendState) (l : Line) :
    (sendProcessLine st l).answer = st.answer ++ lineAnswerText l := by
  cases l with
  | blank => simp [sendProcessLine, lineAnswerText]
  | other s => simp [sendProcessLine, lineAnswerText]
  | data p =>
    cases p with
    | empty => simp [sendProcessLine, lineAnswerText]
    | done => simp [sendProcessLine, lineAnswerText]
    | malformed => simp [sendProcessLine, lineAnswerText]
    | record r =>
      simp only [sendProcessLine, lineAnswerText]
      cases hrc : r.respCreated with
      | some info =>
        cases info <;> simp [recordAnswerText, hrc]
      | none =>
        cases hch : r.choices with
        | none => simp [recordAnswerText, hrc, hch]
        | some cs =>
          simp only [recordAnswerText, hrc, hch]
          exact sendProcessChoices_eq cs st.answer

theorem sendDecodeFrom_answer (lines : List Line) : ∀ st : SendState,
    (sendDecodeFrom st lines).answer = st.answer ++ answerSpec lines := by
  induction lines with
  | nil => intro st; simp [sendDecodeFrom, answerSpec]
  | cons l ls ih =>
    intro st
    have h1 : (sendDecodeFrom st (l :: ls)) =
        sendDecodeFrom (sendProcessLine st l) ls := rfl
    rw [h1, ih, sendProcessLine_answer]
    show _ = st.answer ++ (lineAnswerText l ++ answerSpec ls)
    simp [String.append_assoc]

/-! ### C1 -/

/-- C1: for every well-formed event stream terminated by the sentinel, the
answer string returned by both decoders (`QwenClient.chat` and
`QwenClient.send_message`) equals the concatenation, in arrival order, of
the `content` field of every content delta whose effective phase is
`answer` (a delta with no `phase` field defaulting to `answer`). -/
theorem chat_send_answer_eq_spec (lines : List Line) (h : wellFormed lines) :
    (chatDecode lines).answer = answerSpec lines ∧
    (sendDecode lines).answer = answerSpec lines := by
  obtain ⟨hok, -⟩ := h
  constructor
  · have := chatDecodeFrom_answer lines {} hok
    simpa [chatDecode] using this
  · have := sendDecodeFrom_answer lines {}
    simpa [sendDecode] using this

/-- The spec's example stream: a reasoning delta, an answer delta, then the
sentinel. -/
def exStreamC1 : List Line :=
  [mkThinkLine "thinking...", mkAnswerLine "42", Line.data Payload.done]

/-- Witness for C1 at the spec's example stream, whose decoded answer is
`"42"`. -/
theorem chat_send_answer_eq_spec_witness :
    wellFormed exStreamC1 ∧
      ((chatDecode exStreamC1).answer = answerSpec exStreamC1 ∧
       (sendDecode exStreamC1).answer = answerSpec exStreamC1) :=
  have hw : wellFormed exStreamC1 :=
    ⟨by decide, ⟨[mkThinkLine "thinking...", mkAnswerLine "42"], rfl⟩⟩
  ⟨hw, chat_send_answer_eq_spec exStreamC1 hw⟩

/-! ### C2 -/

/-- The doubly interleaved stream of the claim: reasoning, answer,
reasoning, answer, then the sentinel. -/
def interleaved (a1 b1 a2 b2 : String) : List Line :=
  [mkThinkLine a1, mkAnswerLine b1, mkThinkLine a2, mkAnswerLine b2,
   Line.data Payload.done]

/-- C2 (counterexample): on the stream think `"A"`, answer `"x"`, think
`"B"`, answer `"y"`, the second reasoning flush surfaces `"AB"` — the whole
accumulated reasoning buffer, which re-surfaces the first block `"A"` — and
not just the newly completed block `"B"`, refuting the claim that each
flush surfaces only the block just completed, exactly once. -/
theorem interleaved_flush_counterexample :
    (chatDecode (interleaved "A" "x" "B" "y")).flushes = ["A", "AB"] ∧
    (chatDecode (interleaved "A" "x" "B" "y")).flushes ≠ ["A", "B"] := by
  constructor
  · decide
  · decide

/-- C2 (amended): on a doubly interleaved stream (reasoning, answer,
reasoning, answer) with non-empty contents, `chat` flushes the reasoning
buffer exactly once at each reasoning-to-non-reasoning transition, but each
flush surfaces the whole reasoning accumulated so far (the buffer is never
cleared), so the second flush is `a1 ++ a2`; the final answer buffer still
equals the concatenation of all answer-phase text. -/
theorem interleaved_flushes (a1 b1 a2 b2 : String)
    (ha1 : a1 ≠ "") (hb1 : b1 ≠ "") (ha2 : a2 ≠ "") (hb2 : b2 ≠ "") :
    (chatDecode (interleaved a1 b1 a2 b2)).flushes = [a1, a1 ++ a2] ∧
    (chatDecode (interleaved a1 b1 a2 b2)).answer = b1 ++ b2 := by
  have h12 : a1 ++ a2 ≠ "" := append_ne_empty_left a1 a2 ha1
  constructor <;>
    simp [interleaved, chatDecode, chatDecodeFrom, mkThinkLine, mkAnswerLine,
      chatProcessLine, chatProcessChoices, chatApplyDelta, chatTransition,
      chatAccumulate, chatFlush, ha1, hb1, ha2, hb2, h12]

/-- Witness for C2's amended theorem at concrete contents. -/
theorem interleaved_flushes_witness :
    ("A" : String) ≠ "" ∧ ("x" : String) ≠ "" ∧ ("B" : String) ≠ "" ∧
      ("y" : String) ≠ "" ∧
      ((chatDecode (interleaved "A" "x" "B" "y")).flushes = ["A", "A" ++ "B"] ∧
       (chatDecode (interleaved "A" "x" "B" "y")).answer = "x" ++ "y") :=
  ⟨by decide, by decide, by decide, by decide,
   interleaved_flushes "A" "x" "B" "y" (by decide) (by decide) (by decide)
     (by decide)⟩

/-! ### C3 -/

/-- C3 (counterexample): on the stream answer `"a"`, sentinel, answer
`"b"`, both decoders return `"ab"`: a content-bearing line after the
`[DONE]` sentinel still changes the returned answer, refuting the claim
that the decoder terminates at the sentinel. -/
theorem content_after_done_counterexample :
    (chatDecode [mkAnswerLine "a", Line.data Payload.done,
        mkAnswerLine "b"]).answer = "ab" ∧
    (sendDecode [mkAnswerLine "a", Line.data Payload.done,
        mkAnswerLine "b"]).answer = "ab" ∧
    ("ab" : String) ≠ "a" := by
  refine ⟨by decide, by decide, by decide⟩

/-- C3 (amended): the `[DONE]` payload itself is a no-op — it changes no
accumulator and never errors — so a stream that ends at the sentinel
returns exactly what was accumulated before it; but the decoders do not
stop at the sentinel, they merely skip that line. -/
theorem done_line_is_noop (pre : List Line) (st : ChatState) (ss : SendState) :
    chatProcessLine st (Line.data Payload.done) = st ∧
    sendProcessLine ss (Line.data Payload.done) = ss ∧
    chatDecodeFrom st (pre ++ [Line.data Payload.done]) = chatDecodeFrom st pre ∧
    sendDecodeFrom ss (pre ++ [Line.data Payload.done]) = sendDecodeFrom ss pre := by
  refine ⟨rfl, rfl, ?_, ?_⟩ <;>
    simp [chatDecodeFrom, sendDecodeFrom, List.foldl_append, chatProcessLine,
      sendProcessLine]

/-! ### C4 -/

/-- C4: a `data:` line whose payload fails to parse as JSON is silently
skipped by both decoders: the whole decoder state — both accumulated
buffers and the parent pointer — is exactly preserved, and the line never
aborts the turn. -/
theorem malformed_line_is_noop (st : ChatState) (ss : SendState) :
    chatProcessLine st (Line.data Payload.malformed) = st ∧
    sendProcessLine ss (Line.data Payload.malformed) = ss :=
  ⟨rfl, rfl⟩

/-! ### C7 -/

/-- C7: a record carrying the `response.created` key with a `response_id`
sets the parent pointer to that id and changes nothing else: in both
decoders the whole resulting state is the input state with only `parentId`
replaced, whatever `choices` the record may also carry. -/
theorem response_created_sets_parent (st : ChatState) (ss : SendState)
    (rid : String) (cs : Option (List Delta)) :
    chatProcessLine st
        (Line.data (Payload.record { respCreated := some (some rid), choices := cs }))
      = { st with parentId := some rid } ∧
    sendProcessLine ss
        (Line.data (Payload.record { respCreated := some (some rid), choices := cs }))
      = { ss with parentId := some rid } :=
  ⟨rfl, rfl⟩

/-! ### C5 -/

/-- C5: when a first `_create_conversation` call on a fresh state succeeds,
it issued one HTTP creation call; a second call issues none and returns the
already-set id without touching the state; `new_conversation` then clears
both the conversation id and the parent pointer unconditionally, and the
next `_create_conversation` call issues a creation call again. -/
theorem ensure_conversation_once (st : ClientState) (r1 r2 r3 : CreateResp)
    (cid : String) (h0 : st.conversationId = none)
    (h1 : (create_conversation st r1).result = some cid) :
    (create_conversation st r1).calledTransport = true ∧
    (create_conversation (create_conversation st r1).state r2).result = some cid ∧
    (create_conversation (create_conversation st r1).state r2).calledTransport
      = false ∧
    (create_conversation (create_conversation st r1).state r2).state
      = (create_conversation st r1).state ∧
    (∀ st2 : ClientState, (new_conversation st2).conversationId = none ∧
      (new_conversation st2).parentId = none) ∧
    (create_conversation
        (new_conversation (create_conversation (create_conversation st r1).state r2).state)
        r3).calledTransport = true := by
  by_cases hcond : r1.status = 200 ∧ r1.success = true ∧ r1.dataId.getD "" ≠ ""
  · have hd : r1.dataId = some cid := by
      simpa [create_conversation, h0, hcond] using h1
    have hcid : cid ≠ "" := by
      have := hcond.2.2
      rw [hd] at this
      simpa using this
    refine ⟨?_, ?_, ?_, ?_, fun st2 => ⟨rfl, rfl⟩, ?_⟩ <;>
      simp [create_conversation, new_conversation, h0, hcond, hd, hcid, apply_ite]
  · exfalso
    simp [create_conversation, h0, hcond] at h1

/-- A client state as built by `__init__` from an empty credential store. -/
def exClient : ClientState :=
  { config := { BASE_URL := "https://chat.qwen.ai", userAgent := "Mozilla/5.0" }
    cookies := []
    token := none
    conversationId := none
    parentId := none
    thinkingEnabled := false
    thinkingBudget := 81920 }

/-- Witness for C5: a fresh state, a successful creation response, then two
more responses. -/
theorem ensure_conversation_once_witness :
    exClient.conversationId = none ∧
    (create_conversation exClient ⟨200, true, some "conv-1"⟩).result
      = some "conv-1" ∧
    ((create_conversation exClient ⟨200, true, some "conv-1"⟩).calledTransport
        = true ∧
      (create_conversation
          (create_conversation exClient ⟨200, true, some "conv-1"⟩).state
          ⟨200, true, some "conv-2"⟩).result = some "conv-1" ∧
      (create_conversation
          (create_conversation exClient ⟨200, true, some "conv-1"⟩).state
          ⟨200, true, some "conv-2"⟩).calledTransport = false ∧
      (create_conversation
          (create_conversation exClient ⟨200, true, some "conv-1"⟩).state
          ⟨200, true, some "conv-2"⟩).state
        = (create_conversation exClient ⟨200, true, some "conv-1"⟩).state ∧
      (∀ st2 : ClientState, (new_conversation st2).conversationId = none ∧
        (new_conversation st2).parentId = none) ∧
      (create_conversation
          (new_conversation
            (create_conversation
              (create_conversation exClient ⟨200, true, some "conv-1"⟩).state
              ⟨200, true, some "conv-2"⟩).state)
          ⟨200, true, some "conv-3"⟩).calledTransport = true) :=
  ⟨rfl, by decide,
   ensure_conversation_once exClient ⟨200, true, some "conv-1"⟩
     ⟨200, true, some "conv-2"⟩ ⟨200, true, some "conv-3"⟩ "conv-1" rfl
     (by decide)⟩

/-! ### C6 -/

/-- C6: when the creation response has a non-200 status, or a `success`
flag that is not true, or no `data.id`, `_create_conversation` returns
`None` and leaves the state — in particular the conversation id — exactly
as it was, so a later call can retry creation. -/
theorem create_failure_leaves_unset (st : ClientState) (r : CreateResp)
    (h0 : st.conversationId = none)
    (hfail : r.status ≠ 200 ∨ r.success = false ∨ r.dataId = none) :
    (create_conversation st r).result = none ∧
    (create_conversation st r).state = st ∧
    (create_conversation st r).state.conversationId = none := by
  have hcond : ¬(r.status = 200 ∧ r.success = true ∧ r.dataId.getD "" ≠ "") := by
    rcases hfail with h | h | h <;> simp [h]
  simp [create_conversation, h0, hcond]

/-- Witness for C6 at the spec's scenario: a 200 response whose body is
`success: false`. -/
theorem create_failure_leaves_unset_witness :
    exClient.conversationId = none ∧
    ((200 : Nat) ≠ 200 ∨ (false : Bool) = false ∨ (some "x" : Option String) = none) ∧
    ((create_conversation exClient ⟨200, false, some "x"⟩).result = none ∧
      (create_conversation exClient ⟨200, false, some "x"⟩).state = exClient ∧
      (create_conversation exClient ⟨200, false, some "x"⟩).state.conversationId
        = none) :=
  ⟨rfl, Or.inr (Or.inl rfl),
   create_failure_leaves_unset exClient ⟨200, false, some "x"⟩ rfl
     (Or.inr (Or.inl rfl))⟩

/-! ### C8 -/

/-- C8 (counterexample): with a present-but-corrupt cookie file,
`QwenClient.__init__` does not treat the credentials as absent: only
`FileNotFoundError` is caught by `_load_cookies`, so `json.load`'s
`JSONDecodeError` propagates and client construction fails. -/
theorem corrupt_cookie_file_fails_init :
    clientInit { BASE_URL := "https://chat.qwen.ai", userAgent := "Mozilla/5.0" }
        CookieFile.corrupt none
      = Except.error "JSONDecodeError" := rfl

/-- C8 (amended): a missing cookie file and a missing token file are
treated as absent credentials — construction succeeds with empty cookies
and a token read from the token file if any — but a corrupt cookie file
propagates the JSON decode error and construction fails. -/
theorem missing_credentials_treated_absent (cfg : Config) (tf : Option String) :
    clientInit cfg CookieFile.missing tf =
      Except.ok
        { config := cfg
          cookies := []
          token := tf.map String.trim
          conversationId := none
          parentId := none
          thinkingEnabled := false
          thinkingBudget := 81920 } ∧
    (∀ tf2 : Option String,
      clientInit cfg CookieFile.corrupt tf2 = Except.error "JSONDecodeError") :=
  ⟨rfl, fun _ => rfl⟩

/-! ### C9 -/

/-- A stream containing one delta whose phase is neither `think` nor
`answer`. -/
def exStreamC9 : List Line :=
  [Line.data (Payload.record
     { choices := some [{ content := "x", phase := some "tool" }] }),
   Line.data Payload.done]

/-- C9: the two decoders classify phases differently — `chat` appends a
delta's content to the answer whenever its effective phase is anything
other than `think`, while `send_message` appends only when it equals
exactly `answer` — so on a stream containing a delta with phase `"tool"`
the two return different answers (`"x"` versus `""`). -/
theorem chat_vs_send_phase_classification :
    (∀ (st : ChatState) (d : Delta),
      (chatApplyDelta st d).answer =
        if d.phase.getD "answer" = "think" then st.answer
        else st.answer ++ d.content) ∧
    (∀ (a : String) (d : Delta),
      sendApplyDelta a d =
        if d.phase.getD "answer" = "answer" then a ++ d.content else a) ∧
    (chatDecode exStreamC9).answer = "x" ∧
    (sendDecode exStreamC9).answer = "" ∧
    (chatDecode exStreamC9).answer ≠ (sendDecode exStreamC9).answer := by
  refine ⟨chatApplyDelta_answer, ?_, by decide, by decide, by decide⟩
  intro a d
  rw [sendApplyDelta_eq]
  unfold deltaAnswerText
  by_cases hp : d.phase.getD "answer" = "answer" <;> simp [hp]

/-! ### C10 -/

/-- C10: the loaded bearer token never influences any request: two client
states differing only in the token produce identical headers (given the
same fresh request id) and identical conversation-creation and chat-turn
requests — URL, headers, cookies and payload — and the headers contain
exactly the eight fixed keys, none of which is `Authorization` or a token
field. -/
theorem token_has_no_influence (st : ClientState) (t : Option String)
    (prompt fid childId requestId : String) (systemPrompt : Option String)
    (ts : Nat) :
    get_headers { st with token := t } requestId = get_headers st requestId ∧
    createRequest { st with token := t } requestId ts
      = createRequest st requestId ts ∧
    chatRequest { st with token := t } prompt fid childId requestId ts
      = chatRequest st prompt fid childId requestId ts ∧
    sendRequest { st with token := t } prompt systemPrompt fid childId requestId ts
      = sendRequest st prompt systemPrompt fid childId requestId ts ∧
    (get_headers st requestId).map Prod.fst =
      ["Accept", "Content-Type", "Origin", "Referer", "User-Agent",
       "X-Request-Id", "X-Accel-Buffering", "source"] ∧
    "Authorization" ∉ (get_headers st requestId).map Prod.fst := by
  refine ⟨rfl, rfl, rfl, rfl, rfl, ?_⟩
  simp [get_headers]

end QwenChat
